import Mathlib

/-!
Verification of the Multi-Factor Recommendation Engine
(`backend/recommendation_engine.py`) against its natural-language
specification.

The engine is embedded shallowly: Python floats become exact rationals
(`ℚ`), Python dictionaries with optional keys become structures with
`Option` fields, Python truthiness tests on optional values are modelled
explicitly, and the one code path that can raise (an attribute access on
`None`) is modelled with `Except`.  Square roots (volatility, standard
deviation) are modelled with `Real.sqrt`; the comparisons the code makes
on them are given decidable instances so every definition stays
executable.
-/

namespace RecEngine

/-- Clamp a score to the interval [0, 100], as `max(0, min(100, score))`. -/
def clamp01 (s : ℚ) : ℚ := max 0 (min 100 s)

/-- Python `round(x, 1)`: round to one decimal place. -/
def round1 (q : ℚ) : ℚ := (round (q * 10) : ℤ) / 10

/-- Python `round(x, 2)`: round to two decimal places. -/
def round2 (q : ℚ) : ℚ := (round (q * 100) : ℤ) / 100

/-- One historical price bar, as the dictionaries in `historical_data`:
`close` and `volume` keys may be absent (`none`). -/
structure Bar where
  close : Option ℚ
  volume : Option ℚ
deriving DecidableEq, Repr

/-- The current quote dictionary: `price` (default 0 in the code) and an
optional `change_percent`. -/
structure Quote where
  price : ℚ
  change_percent : Option ℚ
deriving DecidableEq, Repr

/-- The fundamentals dictionary; absent keys default to 0 / the empty
string, exactly as `fundamentals.get(key, 0)` does. -/
structure Fundamentals where
  pe : ℚ
  pb : ℚ
  roe : ℚ
  roce : ℚ
  de : ℚ
  div_yield : ℚ
  mcap : String
deriving DecidableEq, Repr

/-- `closes = [d.get('close') for d in historical_data if d.get('close')]`:
keep only bars whose close is present and truthy (nonzero). -/
def closesOf (bars : List Bar) : List ℚ :=
  bars.filterMap fun b => b.close.bind fun c => if c = 0 then none else some c

/-- `volumes = [d.get('volume') for d in historical_data if d.get('volume')]`. -/
def volumesOf (bars : List Bar) : List ℚ :=
  bars.filterMap fun b => b.volume.bind fun v => if v = 0 then none else some v

/-- `deltas = [prices[i] - prices[i-1] for i in range(1, len(prices))]`. -/
def deltasOf (prices : List ℚ) : List ℚ :=
  List.zipWith (fun cur prev => cur - prev) prices.tail prices

/-- `_calculate_rsi(prices, period)`: average gain / average loss over the
trailing `period` deltas; returns 100 when the average loss is zero, and
50 when fewer than `period + 1` prices are available. -/
def calculate_rsi (prices : List ℚ) (period : ℕ) : ℚ :=
  if prices.length < period + 1 then 50
  else
    let deltas := deltasOf prices
    let gains := deltas.map fun d => if d > 0 then d else 0
    let losses := deltas.map fun d => if d < 0 then -d else 0
    let avgGain := (gains.drop (gains.length - period)).sum / (period : ℚ)
    let avgLoss := (losses.drop (losses.length - period)).sum / (period : ℚ)
    if avgLoss = 0 then 100
    else 100 - 100 / (1 + avgGain / avgLoss)

/-- `_calculate_ema(prices, period)`: seed with the SMA of the first
`period` prices, then fold the EMA update over the rest; returns the last
price (or 0 for an empty list) when the list is shorter than `period`. -/
def calculate_ema (prices : List ℚ) (period : ℕ) : ℚ :=
  if prices.length < period then prices.getLastD 0
  else
    let m : ℚ := 2 / ((period : ℚ) + 1)
    (prices.drop period).foldl (fun ema p => (p - ema) * m + ema)
      ((prices.take period).sum / (period : ℚ))

/-- Output of `_calculate_macd`. -/
structure MacdOut where
  macd : ℚ
  signalLine : ℚ
  histogram : ℚ
deriving DecidableEq, Repr

/-- `_calculate_macd(prices)`: MACD line = EMA12 − EMA26; the code sets
`signal_line = macd_line * 0.9` (its stated approximation) and
`histogram = macd_line - signal_line`; all zero when fewer than 26 prices. -/
def calculate_macd (prices : List ℚ) : MacdOut :=
  if prices.length < 26 then ⟨0, 0, 0⟩
  else
    let m := calculate_ema prices 12 - calculate_ema prices 26
    let s := m * 0.9
    ⟨m, s, m - s⟩

/-- Modelled from the spec: the MACD value at each chronological initial
segment of at least 26 closes ("the MACD series"), whose 9-period EMA the
spec calls the signal line.  This definition follows the specification's
words, not the source, and exists to be compared with `calculate_macd`. -/
def macdSeriesSpec (prices : List ℚ) : List ℚ :=
  (List.range (prices.length + 1)).filterMap fun k =>
    if 26 ≤ k then some (calculate_macd (prices.take k)).macd else none

/-- Modelled from the spec: "a signal line equal to EMA9 of the MACD
series". -/
def macdSignalSpec (prices : List ℚ) : ℚ :=
  calculate_ema (macdSeriesSpec prices) 9

/-- Score contribution of the quote-only path (series shorter than 5):
±15 for a daily change beyond ±2%, ±5 for a smaller nonzero change. -/
def quoteDelta (quote : Option Quote) : ℚ :=
  match quote with
  | none => 0
  | some q =>
    let cp := q.change_percent.getD 0
    if cp > 2 then 15
    else if cp > 0 then 5
    else if cp < -2 then -15
    else if cp < 0 then -5
    else 0

/-- RSI block of `_analyze_technicals` (requires ≥ 14 closes):
oversold +20, approaching oversold +10, overbought −20, approaching
overbought −10, else 0. -/
def rsiDelta (closes : List ℚ) : ℚ :=
  if 14 ≤ closes.length then
    let r := calculate_rsi closes 14
    if r < 30 then 20
    else if r < 40 then 10
    else if r > 70 then -20
    else if r > 60 then -10
    else 0
  else 0

/-- Moving-average(20) block: +10 if the last close is above the 20-bar
mean, −10 otherwise. -/
def ma20Delta (closes : List ℚ) : ℚ :=
  if 20 ≤ closes.length then
    let ma := (closes.drop (closes.length - 20)).sum / 20
    if closes.getLastD 0 > ma then 10 else -10
  else 0

/-- Moving-average(50) block: +10 above, −10 below. -/
def ma50Delta (closes : List ℚ) : ℚ :=
  if 50 ≤ closes.length then
    let ma := (closes.drop (closes.length - 50)).sum / 50
    if closes.getLastD 0 > ma then 10 else -10
  else 0

/-- MACD block of `_analyze_technicals` (requires ≥ 26 closes): +10 when
the histogram is positive, −10 otherwise. -/
def macdDelta (closes : List ℚ) : ℚ :=
  if 26 ≤ closes.length then
    if (calculate_macd closes).histogram > 0 then 10 else -10
  else 0

/-- Momentum block (requires ≥ 10 closes): 10-day momentum in percent,
+15 above 5%, +5 above 0, −15 below −5%, −5 below 0. -/
def momentumDelta (closes : List ℚ) : ℚ :=
  if 10 ≤ closes.length then
    let prev := closes.getD (closes.length - 10) 0
    let mom := (closes.getLastD 0 - prev) / prev * 100
    if mom > 5 then 15
    else if mom > 0 then 5
    else if mom < -5 then -15
    else if mom < 0 then -5
    else 0
  else 0

/-- Volume block of `_analyze_technicals`.  When the latest volume exceeds
1.5× the trailing-10 average, the code evaluates
`quote.get('change_percent')` BEFORE its `if quote` guard, so a missing
quote raises `AttributeError`; this is the only raising path, modelled
with `Except.error`. -/
def volumeDelta (quote : Option Quote) (volumes : List ℚ) : Except String ℚ :=
  if 10 ≤ volumes.length then
    let avg := (volumes.drop (volumes.length - 10)).sum / 10
    let recent := volumes.getLastD 0
    if recent > avg * 1.5 then
      match quote with
      | none => .error "AttributeError: NoneType object has no attribute get"
      | some q => .ok (if q.change_percent.getD 0 > 0 then 5 else 0)
    else .ok 0
  else .ok 0

/-- Result of `_analyze_technicals`: the clamped score plus the indicator
entries the claims refer to (RSI rounded to 1 decimal, MACD histogram
rounded to 2, and the `data_available` flag). -/
structure TechResult where
  score : ℚ
  rsi : Option ℚ
  macdHistogram : Option ℚ
  dataAvailable : Bool
deriving DecidableEq, Repr

/-- `_analyze_technicals(quote, historical_data)`: baseline 50; with fewer
than 5 bars only the quote's daily change contributes; otherwise the RSI,
MA20, MA50, MACD, momentum and volume blocks contribute additively and
the total is clamped to [0, 100]. -/
def analyze_technicals (quote : Option Quote) (hist : Option (List Bar)) :
    Except String TechResult :=
  let bars := hist.getD []
  if bars.length < 5 then
    .ok ⟨clamp01 (50 + quoteDelta quote), none, none, false⟩
  else
    let closes := closesOf bars
    match volumeDelta quote (volumesOf bars) with
    | .error e => .error e
    | .ok vd =>
      .ok ⟨clamp01 (50 + rsiDelta closes + ma20Delta closes + ma50Delta closes
              + macdDelta closes + momentumDelta closes + vd),
            if 14 ≤ closes.length then some (round1 (calculate_rsi closes 14)) else none,
            if 26 ≤ closes.length then some (round2 (calculate_macd closes).histogram) else none,
            true⟩

/-- Projection of an `Except` onto its error message, to state theorems
about the raising path. -/
def exceptError (e : Except String TechResult) : Option String :=
  match e with
  | .error s => some s
  | .ok _ => none

/-- `returns = [(closes[i] - closes[i-1]) / closes[i-1] * 100 ...]`:
daily percentage returns over the whole close series. -/
def returnsOf (closes : List ℚ) : List ℚ :=
  List.zipWith (fun cur prev => (cur - prev) / prev * 100) closes.tail closes

/-- `xs[-20:]`: the trailing 20 elements. -/
def last20 (xs : List ℚ) : List ℚ := xs.drop (xs.length - 20)

/-- Population variance, `sum((r - mean)**2 for r in xs) / len(xs)`, the
formula both `_analyze_risk` and `_calculate_confidence` use. -/
def popVar (xs : List ℚ) : ℚ :=
  let mean := xs.sum / (xs.length : ℚ)
  (xs.map fun r => (r - mean) ^ 2).sum / (xs.length : ℚ)

/-- The code's annualized volatility of the trailing-20 returns compared
against a threshold: `daily_vol * math.sqrt(252) < c` with
`daily_vol = math.sqrt(variance)`. -/
def annVolLt (v c : ℚ) : Prop := Real.sqrt (v : ℝ) * Real.sqrt 252 < ((c : ℚ) : ℝ)

/-- Python truthiness of the computed volatility float: `if volatility_30d:`
is entered only when the annualized volatility is nonzero. -/
def annVolTruthy (v : ℚ) : Prop := Real.sqrt (v : ℝ) * Real.sqrt 252 ≠ 0

instance (v c : ℚ) : Decidable (annVolLt v c) :=
  decidable_of_iff (0 < c ∧ v * 252 < c ^ 2) (by
    have key : Real.sqrt (v : ℝ) * Real.sqrt 252 = Real.sqrt ((v : ℝ) * 252) := by
      rcases le_total 0 (v : ℝ) with h | h
      · rw [Real.sqrt_mul h]
      · rw [Real.sqrt_eq_zero'.mpr h,
          Real.sqrt_eq_zero'.mpr (mul_nonpos_iff.mpr (Or.inr ⟨h, by norm_num⟩)), zero_mul]
    unfold annVolLt
    rw [key]
    constructor
    · rintro ⟨hc, hv⟩
      have hc' : (0 : ℝ) < ((c : ℚ) : ℝ) := by exact_mod_cast hc
      rw [Real.sqrt_lt' hc']
      exact_mod_cast hv
    · intro h
      have hc' : (0 : ℝ) < ((c : ℚ) : ℝ) := lt_of_le_of_lt (Real.sqrt_nonneg _) h
      rw [Real.sqrt_lt' hc'] at h
      refine ⟨by exact_mod_cast hc', ?_⟩
      exact_mod_cast h)

instance (v : ℚ) : Decidable (annVolTruthy v) :=
  decidable_of_iff (0 < v) (by
    have key : Real.sqrt (v : ℝ) * Real.sqrt 252 = Real.sqrt ((v : ℝ) * 252) := by
      rcases le_total 0 (v : ℝ) with h | h
      · rw [Real.sqrt_mul h]
      · rw [Real.sqrt_eq_zero'.mpr h,
          Real.sqrt_eq_zero'.mpr (mul_nonpos_iff.mpr (Or.inr ⟨h, by norm_num⟩)), zero_mul]
    unfold annVolTruthy
    rw [key, Ne, Real.sqrt_eq_zero']
    constructor
    · intro hv hle
      have : (0 : ℝ) < (v : ℝ) := by exact_mod_cast hv
      nlinarith
    · intro h
      by_contra hv
      push_neg at hv
      have : ((v : ℚ) : ℝ) ≤ 0 := by exact_mod_cast hv
      exact h (by nlinarith))

/-- Risk levels of the engine. -/
inductive RiskLevel
  | LOW
  | MODERATE
  | HIGH
  | VERY_HIGH
deriving DecidableEq, Repr

/-- The part of `_analyze_risk` that computes the trailing-20 population
variance of daily returns: `none` unless the raw series has ≥ 20 bars,
the truthy closes number ≥ 20 and the return series has ≥ 20 entries
(which needs 21 closes). -/
def vol30Var (hist : Option (List Bar)) : Option ℚ :=
  match hist with
  | none => none
  | some bars =>
    if 20 ≤ bars.length then
      let closes := closesOf bars
      if 20 ≤ closes.length then
        let rs := returnsOf closes
        if 20 ≤ rs.length then some (popVar (last20 rs)) else none
      else none
    else none

/-- The fundamentals fallback of `_analyze_risk`: DE > 1.5 → HIGH (−15);
Large Cap → LOW (+10); Penny Stock → VERY_HIGH (−20); else MODERATE (0). -/
def risk_proxy (fund : Fundamentals) : RiskLevel × ℚ :=
  if fund.de > 1.5 then (.HIGH, -15)
  else if fund.mcap = "Large Cap" then (.LOW, 10)
  else if fund.mcap = "Penny Stock" then (.VERY_HIGH, -20)
  else (.MODERATE, 0)

/-- `_analyze_risk(quote, historical_data, fundamentals)` restricted to the
fields the claims are about: the risk level and the clamped score.  The
volatility buckets run only when the annualized volatility was computed
AND is truthy (Python `if volatility_30d:` is false at 0.0); otherwise
the fundamentals proxy decides. -/
def analyze_risk (hist : Option (List Bar)) (fund : Fundamentals) : RiskLevel × ℚ :=
  let lv : RiskLevel × ℚ :=
    match vol30Var hist with
    | some v =>
      if annVolTruthy v then
        if annVolLt v 15 then (.LOW, 20)
        else if annVolLt v 25 then (.MODERATE, 10)
        else if annVolLt v 40 then (.HIGH, -10)
        else (.VERY_HIGH, -25)
      else risk_proxy fund
    | none => risk_proxy fund
  (lv.1, clamp01 (50 + lv.2))

/-- `_calculate_confidence(scores)`: population standard deviation of the
factor scores, agreement factor `max(0, 100 - std/30*100)`, confidence
`min(95, 40 + agreement*0.55)`; 50 for an empty list. -/
noncomputable def calculate_confidence (scores : List ℚ) : ℝ :=
  if scores = [] then 50
  else
    let stdDev := Real.sqrt ((popVar scores : ℚ) : ℝ)
    let agreement := max 0 (100 - stdDev / 30 * 100)
    min 95 (40 + agreement * 0.55)

/-- The discrete signals, `SIGNAL_THRESHOLDS` order. -/
inductive Signal
  | STRONG_BUY
  | BUY
  | HOLD
  | SELL
  | AVOID
deriving DecidableEq, Repr

/-- `_determine_signal(score)`: top-down thresholds 80 / 65 / 45 / 30. -/
def determine_signal (score : ℚ) : Signal :=
  if score ≥ 80 then .STRONG_BUY
  else if score ≥ 65 then .BUY
  else if score ≥ 45 then .HOLD
  else if score ≥ 30 then .SELL
  else .AVOID

/-- Rank of a signal under AVOID < SELL < HOLD < BUY < STRONG_BUY. -/
def signalRank : Signal → ℕ
  | .AVOID => 0
  | .SELL => 1
  | .HOLD => 2
  | .BUY => 3
  | .STRONG_BUY => 4

/-- The `risk_multipliers` table: (upside, downside) per risk level. -/
def risk_multipliers : RiskLevel → ℚ × ℚ
  | .LOW => (1.15, 0.95)
  | .MODERATE => (1.12, 0.93)
  | .HIGH => (1.20, 0.88)
  | .VERY_HIGH => (1.30, 0.80)

/-- One horizon entry of the timeframe dictionary. -/
structure Projection where
  signal : Signal
  target : ℚ
  stoploss : ℚ
  score : ℚ
deriving DecidableEq, Repr

/-- The four-horizon dictionary of `_generate_timeframe_recommendations`. -/
structure Timeframes where
  intraday : Projection
  short_term : Projection
  medium_term : Projection
  long_term : Projection
deriving DecidableEq, Repr

/-- `_generate_timeframe_recommendations`: returns `{}` (here `none`) when
the current price is falsy; otherwise blends the technical and fundamental
scores per horizon and derives target/stop-loss from the current price
(fixed ±2%/−1.5% and +8%/−5% intraday and short-term; the risk-level
multiplier table for medium-term, with the upside factor squared for
long-term). -/
def generate_timeframe_recommendations (quote : Option Quote)
    (techScore fundScore : ℚ) (riskLevel : RiskLevel) : Option Timeframes :=
  let p := match quote with
    | some q => q.price
    | none => 0
  if p = 0 then none
  else
    let m := risk_multipliers riskLevel
    let intradayScore := techScore * 0.8 + fundScore * 0.2
    let shortScore := techScore * 0.6 + fundScore * 0.4
    let mediumScore := techScore * 0.4 + fundScore * 0.6
    let longScore := techScore * 0.2 + fundScore * 0.8
    some
      ⟨⟨determine_signal intradayScore, round2 (p * 1.02), round2 (p * 0.985),
          round1 intradayScore⟩,
        ⟨determine_signal shortScore, round2 (p * 1.08), round2 (p * 0.95),
          round1 shortScore⟩,
        ⟨determine_signal mediumScore, round2 (p * m.1), round2 (p * m.2),
          round1 mediumScore⟩,
        ⟨determine_signal longScore, round2 (p * m.1 ^ 2), round2 (p * m.2),
          round1 longScore⟩⟩

set_option maxRecDepth 10000

/-- C1, counterexample.  For `FundamentalSnapshot{de: 0.05, roce: 20}` with
no price series and no market-cap tier, `_analyze_risk` falls to the final
`else` of the fundamentals proxy and returns MODERATE (score 50), so the
claimed `riskLevel = LOW` is false. -/
theorem c1_counterexample :
    analyze_risk none ⟨0, 0, 0, 20, 0.05, 0, ""⟩ = (RiskLevel.MODERATE, 50) ∧
      RiskLevel.MODERATE ≠ RiskLevel.LOW := by
  refine ⟨by with_unfolding_all rfl, by simp⟩

/-- C1, amended.  With no price series the risk analyzer does fall back to
the fundamentals proxy, and for `{de: 0.05, roce: 20}` (no market-cap
tier) it assigns riskLevel = MODERATE with score 50 — not VERY_HIGH, but
not LOW either: DE = 0.05 only avoids the high-debt penalty, and LOW
requires `mcap = 'Large Cap'`. -/
theorem c1_amended :
    analyze_risk none ⟨0, 0, 0, 20, 0.05, 0, ""⟩ = (RiskLevel.MODERATE, 50) ∧
      (analyze_risk none ⟨0, 0, 0, 20, 0.05, 0, ""⟩).1 ≠ RiskLevel.VERY_HIGH ∧
      analyze_risk none ⟨0, 0, 0, 20, 0.05, 0, ""⟩ =
        ((risk_proxy ⟨0, 0, 0, 20, 0.05, 0, ""⟩).1,
          clamp01 (50 + (risk_proxy ⟨0, 0, 0, 20, 0.05, 0, ""⟩).2)) := by
  refine ⟨by with_unfolding_all rfl, by with_unfolding_all decide, by with_unfolding_all rfl⟩

/-- C2, counterexample.  For the 25-close series rising 1% per day (and no
quote), `_analyze_technicals` yields RSI = 100 but produces NO MACD
histogram (the MACD block needs ≥ 26 closes) and a technical score of 55,
nowhere near 100: the RSI = 100 is counted as overbought (−20), MA20 adds
+10 and momentum +15 from the baseline 50. -/
theorem c2_counterexample :
    analyze_technicals none
        (some ((List.range 25).map fun i => (⟨some ((100 : ℚ) * 1.01 ^ i), none⟩ : Bar))) =
      .ok ⟨55, some 100, none, true⟩ := by
  with_unfolding_all rfl

/-- C2, amended.  On the 25-close 1%-per-day series the RSI is exactly 100,
but the MACD block is skipped (25 < 26, so its score contribution is 0 and
no histogram is reported) and the technical score is 55, not near 100. -/
theorem c2_amended :
    calculate_rsi ((List.range 25).map fun i => (100 : ℚ) * 1.01 ^ i) 14 = 100 ∧
      macdDelta ((List.range 25).map fun i => (100 : ℚ) * 1.01 ^ i) = 0 ∧
      (analyze_technicals none
          (some ((List.range 25).map fun i => (⟨some ((100 : ℚ) * 1.01 ^ i), none⟩ : Bar)))).toOption.map
          TechResult.score = some 55 := by
  refine ⟨by with_unfolding_all rfl, by with_unfolding_all rfl, by with_unfolding_all rfl⟩

/-- C3, code bug.  With quote = None, closes all 100 over 10 bars, and ten
volume entries `[100]*9 ++ [200]` (latest volume 200 > 1.5 × trailing-10
average 110), `_analyze_technicals` reaches
`change_pct = quote.get('change_percent') or 0` BEFORE the `if quote`
guard and raises AttributeError, contradicting the claim that the engine
never raises for missing optional data. -/
theorem c3_code_bug :
    analyze_technicals none
        (some (List.replicate 9 (⟨some 100, some 100⟩ : Bar) ++ [⟨some 100, some 200⟩])) =
      .error "AttributeError: NoneType object has no attribute get" := by
  with_unfolding_all rfl

/-- C4, counterexample.  For the 26-close series rising 1% per day the
signal line returned by `_calculate_macd` is `0.9 × MACD`, which differs
from the EMA9 of the MACD series that the claim asserts (here the MACD
series has the single value MACD, whose EMA9 is MACD itself, and
MACD ≠ 0). -/
theorem c4_counterexample :
    (calculate_macd ((List.range 26).map fun i => (100 : ℚ) * 1.01 ^ i)).signalLine ≠
      macdSignalSpec ((List.range 26).map fun i => (100 : ℚ) * 1.01 ^ i) := by
  with_unfolding_all decide

/-- C4, amended.  For every series of at least 26 closes, `_calculate_macd`
returns MACD = EMA12 − EMA26, a signal line equal to 0.9 × MACD (the
code's stated approximation, not an EMA9 of a MACD series), and
histogram = MACD − signal line (= 0.1 × MACD); the technical score then
gets +10 if the histogram is > 0, else −10. -/
theorem c4_amended (prices : List ℚ) (h : 26 ≤ prices.length) :
    calculate_macd prices =
        ⟨calculate_ema prices 12 - calculate_ema prices 26,
          (calculate_ema prices 12 - calculate_ema prices 26) * 0.9,
          (calculate_ema prices 12 - calculate_ema prices 26) -
            (calculate_ema prices 12 - calculate_ema prices 26) * 0.9⟩ ∧
      macdDelta prices = (if (calculate_macd prices).histogram > 0 then 10 else -10) := by
  constructor
  · simp only [calculate_macd, if_neg (not_lt.mpr h)]
  · simp only [macdDelta, if_pos h]

/-- C4, witness: the amended statement evaluated on the concrete 26-close
rising series. -/
theorem c4_witness :
    calculate_macd ((List.range 26).map fun i => (100 : ℚ) * 1.01 ^ i) =
        ⟨calculate_ema ((List.range 26).map fun i => (100 : ℚ) * 1.01 ^ i) 12 -
            calculate_ema ((List.range 26).map fun i => (100 : ℚ) * 1.01 ^ i) 26,
          (calculate_ema ((List.range 26).map fun i => (100 : ℚ) * 1.01 ^ i) 12 -
              calculate_ema ((List.range 26).map fun i => (100 : ℚ) * 1.01 ^ i) 26) * 0.9,
          (calculate_ema ((List.range 26).map fun i => (100 : ℚ) * 1.01 ^ i) 12 -
              calculate_ema ((List.range 26).map fun i => (100 : ℚ) * 1.01 ^ i) 26) -
            (calculate_ema ((List.range 26).map fun i => (100 : ℚ) * 1.01 ^ i) 12 -
                calculate_ema ((List.range 26).map fun i => (100 : ℚ) * 1.01 ^ i) 26) * 0.9⟩ ∧
      macdDelta ((List.range 26).map fun i => (100 : ℚ) * 1.01 ^ i) =
        (if (calculate_macd ((List.range 26).map fun i => (100 : ℚ) * 1.01 ^ i)).histogram > 0
          then 10 else -10) :=
  c4_amended ((List.range 26).map fun i => (100 : ℚ) * 1.01 ^ i) (by simp)

/-- C9.  For riskLevel = MODERATE and current price = 100, the medium-term
stop-loss is exactly 93 for every pair of factor scores, and the
multiplier table is LOW{1.15, 0.95}, MODERATE{1.12, 0.93},
HIGH{1.20, 0.88}, VERY_HIGH{1.30, 0.80}. -/
theorem c9_medium_term_stoploss :
    (∀ techScore fundScore : ℚ,
      (generate_timeframe_recommendations (some ⟨100, none⟩) techScore fundScore
            RiskLevel.MODERATE).map (fun tf => tf.medium_term.stoploss) = some 93) ∧
      risk_multipliers .LOW = (1.15, 0.95) ∧
      risk_multipliers .MODERATE = (1.12, 0.93) ∧
      risk_multipliers .HIGH = (1.20, 0.88) ∧
      risk_multipliers .VERY_HIGH = (1.30, 0.80) := by
  refine ⟨fun t f => ?_, rfl, rfl, rfl, rfl⟩
  simp only [generate_timeframe_recommendations, risk_multipliers,
    if_neg (by norm_num : ¬ (100 : ℚ) = 0), Option.map_some']
  with_unfolding_all decide

/-- C5, counterexample.  A constant-price series of 21 bars has at least
20 usable bars and volatility exactly 0, but Python's `if volatility_30d:`
is false at 0.0, so `_analyze_risk` falls back to the fundamentals proxy
(MODERATE for empty fundamentals, score 50) instead of the claimed
LOW bucket with score 70. -/
theorem c5_counterexample :
    analyze_risk (some (List.replicate 21 (⟨some 100, none⟩ : Bar))) ⟨0, 0, 0, 0, 0, 0, ""⟩ =
      (RiskLevel.MODERATE, 50) ∧ RiskLevel.MODERATE ≠ RiskLevel.LOW := by
  refine ⟨by with_unfolding_all rfl, by simp⟩

/-- C5, amended.  For every series with ≥ 20 raw bars, ≥ 20 usable closes
and ≥ 20 daily returns (hence ≥ 21 usable closes) whose trailing-20
annualized volatility is nonzero, the risk level and score come from the
volatility buckets (< 15 → LOW 70, < 25 → MODERATE 60, < 40 → HIGH 40,
else VERY_HIGH 25, i.e. baseline 50 +20/+10/−10/−25) and the fundamentals
proxy is not used (the result does not depend on `fund`).  A zero-volatility
(constant-price) series or a series with exactly 20 usable closes instead
falls back to the proxy. -/
theorem c5_amended (bars : List Bar) (fund : Fundamentals)
    (h1 : 20 ≤ bars.length)
    (h2 : 20 ≤ (closesOf bars).length)
    (h3 : 20 ≤ (returnsOf (closesOf bars)).length)
    (hv : annVolTruthy (popVar (last20 (returnsOf (closesOf bars))))) :
    analyze_risk (some bars) fund =
      (if annVolLt (popVar (last20 (returnsOf (closesOf bars)))) 15 then (RiskLevel.LOW, 70)
       else if annVolLt (popVar (last20 (returnsOf (closesOf bars)))) 25 then
        (RiskLevel.MODERATE, 60)
       else if annVolLt (popVar (last20 (returnsOf (closesOf bars)))) 40 then (RiskLevel.HIGH, 40)
       else (RiskLevel.VERY_HIGH, 25)) := by
  simp only [analyze_risk, vol30Var, if_pos h1, if_pos h2, if_pos h3, if_pos hv]
  split_ifs <;> norm_num [clamp01]

/-- C5, witness: 20 bars at 100 followed by one at 101 give variance
19/400 > 0 and annualized volatility below 15, so the LOW bucket with
score 70 applies. -/
theorem c5_witness :
    analyze_risk (some (List.replicate 20 (⟨some 100, none⟩ : Bar) ++ [⟨some 101, none⟩]))
        ⟨0, 0, 0, 0, 0, 0, ""⟩ = (RiskLevel.LOW, 70) := by
  have h := c5_amended (List.replicate 20 (⟨some 100, none⟩ : Bar) ++ [⟨some 101, none⟩])
    ⟨0, 0, 0, 0, 0, 0, ""⟩ (by simp) (by with_unfolding_all decide)
    (by with_unfolding_all decide) (by with_unfolding_all decide)
  rw [h]
  with_unfolding_all decide

/-- C6.  For four factor scores in [0, 100], the confidence equals
`min(95, 40 + 0.55·max(0, 100 − std/30×100))` with `std` the population
standard deviation of the four scores; hence it always lies in [40, 95],
and when all four scores are equal it is exactly 95. -/
theorem c6_confidence_bounds (a b c d : ℚ)
    (ha : 0 ≤ a ∧ a ≤ 100) (hb : 0 ≤ b ∧ b ≤ 100)
    (hc : 0 ≤ c ∧ c ≤ 100) (hd : 0 ≤ d ∧ d ≤ 100) :
    calculate_confidence [a, b, c, d] =
        min 95 (40 + 0.55 * max 0 (100 - Real.sqrt ((popVar [a, b, c, d] : ℚ) : ℝ) / 30 * 100)) ∧
      40 ≤ calculate_confidence [a, b, c, d] ∧
      calculate_confidence [a, b, c, d] ≤ 95 ∧
      (a = b → b = c → c = d → calculate_confidence [a, b, c, d] = 95) := by
  have hne : ([a, b, c, d] : List ℚ) ≠ [] := by simp
  have hag : (0 : ℝ) ≤ max 0 (100 - Real.sqrt ((popVar [a, b, c, d] : ℚ) : ℝ) / 30 * 100) :=
    le_max_left 0 _
  refine ⟨?_, ?_, ?_, ?_⟩
  · simp only [calculate_confidence, if_neg hne]
    congr 1
    ring
  · simp only [calculate_confidence, if_neg hne]
    refine le_min (by norm_num) (by nlinarith)
  · simp only [calculate_confidence, if_neg hne]
    exact min_le_left _ _
  · rintro rfl rfl rfl
    have hv : popVar [a, a, a, a] = 0 := by
      simp [popVar]
      ring_nf
    simp only [calculate_confidence, if_neg hne, hv]
    norm_num [Real.sqrt_zero]

/-- C6, witness: four factor scores all equal to 50 give confidence
exactly 95. -/
theorem c6_witness : calculate_confidence [50, 50, 50, 50] = 95 :=
  (c6_confidence_bounds 50 50 50 50 (by norm_num) (by norm_num) (by norm_num)
    (by norm_num)).2.2.2 rfl rfl rfl

/-- C7.  For every list of at least 15 prices whose trailing 14 deltas
contain no losses, the average loss is exactly 0 and `_calculate_rsi`
returns exactly 100 through its `avg_loss == 0` guard, never reaching the
division `100 − 100/(1 + avgGain/avgLoss)`. -/
theorem c7_rsi_no_losses (prices : List ℚ) (hlen : 15 ≤ prices.length)
    (hnl : ∀ d ∈ (deltasOf prices).drop ((deltasOf prices).length - 14), 0 ≤ d) :
    ((((deltasOf prices).map fun d => if d < 0 then -d else 0).drop
        (((deltasOf prices).map fun d => if d < 0 then -d else 0).length - 14)).sum / (14 : ℚ)
        = 0) ∧
      calculate_rsi prices 14 = 100 := by
  have hzero : (((deltasOf prices).map fun d => if d < 0 then -d else 0).drop
      (((deltasOf prices).map fun d => if d < 0 then -d else 0).length - 14)).sum = 0 := by
    rw [List.length_map, ← List.map_drop]
    apply List.sum_eq_zero
    intro x hx
    rcases List.mem_map.mp hx with ⟨d, hd, rfl⟩
    have := hnl d hd
    simp [not_lt.mpr this]
  refine ⟨by rw [hzero]; norm_num, ?_⟩
  have hnotlt : ¬ prices.length < 14 + 1 := by omega
  simp only [calculate_rsi, if_neg hnotlt]
  rw [if_pos]
  rw [hzero]
  norm_num

/-- C7, witness: 15 strictly increasing prices have only gains, so the
RSI is exactly 100. -/
theorem c7_witness : calculate_rsi ((List.range 15).map fun i => (100 : ℚ) + i) 14 = 100 :=
  (c7_rsi_no_losses ((List.range 15).map fun i => (100 : ℚ) + i)
    (by with_unfolding_all decide) (by with_unfolding_all decide)).2

/-- C8.  `_determine_signal` maps every score by the ordered thresholds
≥ 80 STRONG BUY, ≥ 65 BUY, ≥ 45 HOLD, ≥ 30 SELL, else AVOID (first match
wins), and is monotone: a lower score never gets a higher signal rank
under AVOID < SELL < HOLD < BUY < STRONG BUY. -/
theorem c8_signal_thresholds_monotone :
    (∀ s : ℚ, determine_signal s =
      if s ≥ 80 then .STRONG_BUY
      else if s ≥ 65 then .BUY
      else if s ≥ 45 then .HOLD
      else if s ≥ 30 then .SELL
      else .AVOID) ∧
    ∀ s1 s2 : ℚ, s1 ≤ s2 →
      signalRank (determine_signal s1) ≤ signalRank (determine_signal s2) := by
  refine ⟨fun s => rfl, fun s1 s2 h => ?_⟩
  unfold determine_signal
  split_ifs <;> simp_all [signalRank] <;> linarith

/-- C8, witness: a score of 30 (SELL) ranks no higher than a score of 50
(HOLD). -/
theorem c8_witness : signalRank (determine_signal 30) ≤ signalRank (determine_signal 50) :=
  c8_signal_thresholds_monotone.2 30 50 (by norm_num)

/-- Two-decimal rounding moves a value up by at most 1/200. -/
theorem round2_le_bound (x : ℚ) : round2 x ≤ x + 1 / 200 := by
  have h := abs_sub_round (x * 100)
  rw [abs_le] at h
  unfold round2
  have h1 := h.1
  have h2 := h.2
  linarith

/-- Two-decimal rounding moves a value down by at most 1/200. -/
theorem le_round2_bound (x : ℚ) : x - 1 / 200 ≤ round2 x := by
  have h := abs_sub_round (x * 100)
  rw [abs_le] at h
  unfold round2
  have h1 := h.1
  have h2 := h.2
  linarith

/-- For a price ≥ 1, multiplying by a factor ≤ 0.985 and rounding to two
decimals stays strictly below the price. -/
theorem round2_mul_lt (p c : ℚ) (hp : 1 ≤ p) (hc : c ≤ 0.985) : round2 (p * c) < p := by
  have h := round2_le_bound (p * c)
  have h2 : p * c ≤ p * 0.985 := mul_le_mul_of_nonneg_left hc (by linarith)
  linarith

/-- For a price ≥ 1, multiplying by a factor ≥ 1.02 and rounding to two
decimals stays strictly above the price. -/
theorem lt_round2_mul (p c : ℚ) (hp : 1 ≤ p) (hc : 1.02 ≤ c) : p < round2 (p * c) := by
  have h := le_round2_bound (p * c)
  have h2 : p * 1.02 ≤ p * c := mul_le_mul_of_nonneg_left hc (by linarith)
  linarith

/-- Shape of `_generate_timeframe_recommendations` for a nonzero price. -/
theorem generate_timeframe_eq (p : ℚ) (hp : p ≠ 0) (cp : Option ℚ) (t f : ℚ)
    (rl : RiskLevel) :
    generate_timeframe_recommendations (some ⟨p, cp⟩) t f rl =
      some
        ⟨⟨determine_signal (t * 0.8 + f * 0.2), round2 (p * 1.02), round2 (p * 0.985),
            round1 (t * 0.8 + f * 0.2)⟩,
          ⟨determine_signal (t * 0.6 + f * 0.4), round2 (p * 1.08), round2 (p * 0.95),
            round1 (t * 0.6 + f * 0.4)⟩,
          ⟨determine_signal (t * 0.4 + f * 0.6), round2 (p * (risk_multipliers rl).1),
            round2 (p * (risk_multipliers rl).2), round1 (t * 0.4 + f * 0.6)⟩,
          ⟨determine_signal (t * 0.2 + f * 0.8), round2 (p * (risk_multipliers rl).1 ^ 2),
            round2 (p * (risk_multipliers rl).2), round1 (t * 0.2 + f * 0.8)⟩⟩ := by
  simp only [generate_timeframe_recommendations, if_neg hp]

/-- C10.  For every current price ≥ 1, any factor scores and any risk
level, all four horizon projections exist and satisfy
stopLoss < price < target: every downside multiplier is ≤ 0.985 < 1,
every upside multiplier (including the squared long-term one) is
≥ 1.02 > 1, and two-decimal rounding (±1/200) cannot reverse the strict
ordering at that price scale. -/
theorem c10_stoploss_lt_price_lt_target (p : ℚ) (hp : 1 ≤ p) (cp : Option ℚ) (t f : ℚ)
    (rl : RiskLevel) :
    ∃ tfs, generate_timeframe_recommendations (some ⟨p, cp⟩) t f rl = some tfs ∧
      tfs.intraday.stoploss < p ∧ p < tfs.intraday.target ∧
      tfs.short_term.stoploss < p ∧ p < tfs.short_term.target ∧
      tfs.medium_term.stoploss < p ∧ p < tfs.medium_term.target ∧
      tfs.long_term.stoploss < p ∧ p < tfs.long_term.target := by
  have hp0 : p ≠ 0 := by intro h; rw [h] at hp; norm_num at hp
  have hup : 1.12 ≤ (risk_multipliers rl).1 := by cases rl <;> norm_num [risk_multipliers]
  have hdn : (risk_multipliers rl).2 ≤ 0.95 := by cases rl <;> norm_num [risk_multipliers]
  have hup2 : 1.02 ≤ (risk_multipliers rl).1 ^ 2 := by nlinarith
  exact ⟨_, generate_timeframe_eq p hp0 cp t f rl,
    round2_mul_lt p 0.985 hp (by norm_num),
    lt_round2_mul p 1.02 hp (by norm_num),
    round2_mul_lt p 0.95 hp (by norm_num),
    lt_round2_mul p 1.08 hp (by norm_num),
    round2_mul_lt p _ hp (by linarith),
    lt_round2_mul p _ hp (by linarith),
    round2_mul_lt p _ hp (by linarith),
    lt_round2_mul p _ hp (by linarith)⟩

/-- C10, witness: price 100, both scores 50, risk MODERATE. -/
theorem c10_witness :
    ∃ tfs, generate_timeframe_recommendations (some ⟨100, none⟩) 50 50 RiskLevel.MODERATE =
        some tfs ∧
      tfs.intraday.stoploss < 100 ∧ (100 : ℚ) < tfs.intraday.target ∧
      tfs.short_term.stoploss < 100 ∧ (100 : ℚ) < tfs.short_term.target ∧
      tfs.medium_term.stoploss < 100 ∧ (100 : ℚ) < tfs.medium_term.target ∧
      tfs.long_term.stoploss < 100 ∧ (100 : ℚ) < tfs.long_term.target :=
  c10_stoploss_lt_price_lt_target 100 (by norm_num) none 50 50 RiskLevel.MODERATE

end RecEngine
